/-
  Verification of the hp-printer-app workflow core against its specification.

  Shallow embedding of:
  * the print workflow state machine (`src/app/print/_lib/print-reducer.ts`),
  * the IPP job-state mapping and page-count fallback
    (`src/app/api/print/jobs/[id]/route.ts`),
  * the eSCL scan driver `performScan` / `waitForScanComplete` / `cancelScanJob`
    (`src/app/_lib/printer-api.ts`),
  * the telemetry parsers (paper state, alert severity, job-list job state,
    ink levels) and the status aggregator's `computeStatus` and
    drawer auto-expand logic
    (`src/app/_lib/printer-api.ts`, `src/app/_lib/job-api.ts`,
     `src/app/_lib/printer-status-context.tsx`),
  * one invocation of the copy orchestrator's `startCopy`
    (`src/app/copy/_lib/use-copy.ts`).

  TypeScript union types whose values are produced by unvalidated casts are
  modelled as `String`; machine numbers that the code treats as exact
  integers are modelled as `Int`/`Nat`.
-/
import Mathlib

namespace HpPrinterApp

/-! ## Print workflow state machine (`print-reducer.ts`)

`File` objects are opaque to the reducer: it only stores and moves them.
We model a file by its name. -/

/-- Type `PrintState` from `print-reducer.ts`: the six variants of the
print-flow sum type.  Field order follows the source object literals. -/
inductive PrintState where
  | empty : PrintState
  | ready (file : String) : PrintState
  | sending (file : String) (jobId : Int) : PrintState
  | printing (file : String) (jobId : Int) (progress : Int)
      (currentPage : Int) (totalPages : Int) : PrintState
  | complete (file : String) (totalPages : Int) : PrintState
  | error (file : String) (errorMessage : String) : PrintState
deriving DecidableEq, Repr

/-- Type `PrintAction` from `print-reducer.ts`: the nine dispatchable actions. -/
inductive PrintAction where
  | SELECT_FILE (file : String) : PrintAction
  | REMOVE_FILE : PrintAction
  | START_SEND (jobId : Int) : PrintAction
  | START_PRINTING (totalPages : Int) : PrintAction
  | PRINT_PROGRESS (currentPage : Int) (progress : Int) : PrintAction
  | COMPLETE : PrintAction
  | ERROR (message : String) : PrintAction
  | CANCEL : PrintAction
  | RESET : PrintAction
deriving DecidableEq, Repr

/-- The `initialState` constant from `print-reducer.ts`. -/
def initialState : PrintState := .empty

/-- Function `printReducer` from `print-reducer.ts`: switch on the action type,
then guard on the current state's type; every unguarded pair returns the
input state unchanged. -/
def printReducer (state : PrintState) (action : PrintAction) : PrintState :=
  match action with
  | .SELECT_FILE file =>
      match state with
      | .empty => .ready file
      | .ready _ => .ready file
      | _ => state
  | .REMOVE_FILE =>
      match state with
      | .ready _ => .empty
      | _ => state
  | .START_SEND jobId =>
      match state with
      | .ready file => .sending file jobId
      | _ => state
  | .START_PRINTING totalPages =>
      match state with
      | .sending file jobId => .printing file jobId 0 1 totalPages
      | _ => state
  | .PRINT_PROGRESS currentPage progress =>
      match state with
      | .printing file jobId _ _ totalPages =>
          .printing file jobId progress currentPage totalPages
      | _ => state
  | .COMPLETE =>
      match state with
      | .printing file _ _ _ totalPages => .complete file totalPages
      | _ => state
  | .ERROR message =>
      match state with
      | .sending file _ => .error file message
      | .printing file _ _ _ _ => .error file message
      | _ => state
  | .CANCEL =>
      match state with
      | .sending file _ => .ready file
      | .printing file _ _ _ _ => .ready file
      | .error file _ => .ready file
      | _ => state
  | .RESET =>
      match state with
      | .complete _ _ => .empty
      | .error _ _ => .empty
      | _ => state

/-- The spec's §4.4 transition table, written from the spec's words:
`some s'` for the rows of the table, `none` for every (state, action)
pair the table does not list. -/
def specTransitionTable : PrintState → PrintAction → Option PrintState
  | .empty, .SELECT_FILE f => some (.ready f)
  | .ready _, .SELECT_FILE f => some (.ready f)
  | .ready _, .REMOVE_FILE => some .empty
  | .ready f, .START_SEND j => some (.sending f j)
  | .sending f j, .START_PRINTING tp => some (.printing f j 0 1 tp)
  | .printing f j _ _ tp, .PRINT_PROGRESS page prog =>
      some (.printing f j prog page tp)
  | .printing f _ _ _ tp, .COMPLETE => some (.complete f tp)
  | .sending f _, .ERROR m => some (.error f m)
  | .printing f _ _ _ _, .ERROR m => some (.error f m)
  | .sending f _, .CANCEL => some (.ready f)
  | .printing f _ _ _ _, .CANCEL => some (.ready f)
  | .error f _, .CANCEL => some (.ready f)
  | .complete _ _, .RESET => some .empty
  | .error _ _, .RESET => some .empty
  | _, _ => none

/-! ## IPP job-status endpoint (`app/api/print/jobs/[id]/route.ts`)

The `GET` handler reads the IPP `job-attributes-tag` group.  Attributes may
be absent; numeric attributes are modelled as `Option Int`. -/

/-- The canonical `JobState` union from the route handler. -/
inductive JobState where
  | pending | processing | completed | canceled | aborted
deriving DecidableEq, Repr

/-- Function `mapJobState` from the route handler: switch over the RFC 8011
`job-state` integer, defaulting to `pending`. -/
def mapJobState (ippState : Int) : JobState :=
  match ippState with
  | 3 | 4 => .pending
  | 5 | 6 => .processing
  | 7 => .canceled
  | 8 => .aborted
  | 9 => .completed
  | _ => .pending

/-- The `IppJobAttributes` interface of the route handler (the attributes
requested by Get-Job-Attributes); every field is optional in IPP. -/
structure IppJobAttributes where
  jobState : Option Int
  jobStateReasons : List String
  jobStateMessage : Option String
  jobImpressionsCompleted : Option Int
  jobMediaSheetsCompleted : Option Int
  jobImpressions : Option Int
  jobMediaSheets : Option Int
deriving DecidableEq, Repr

/-- Expression `mapJobState(jobAttrs["job-state"] ?? 3)` from the handler: the state reported by the
endpoint, with the attribute defaulted to 3 when absent. -/
def reportedJobState (jobAttrs : IppJobAttributes) : JobState :=
  mapJobState (jobAttrs.jobState.getD 3)

/-- JavaScript `a || b` on `number | undefined` operands: `a` is kept only
when it is truthy, i.e. present and non-zero (NaN cannot arise here since
IPP integer attributes are parsed as exact integers). -/
def jsOrNum (a b : Option Int) : Option Int :=
  match a with
  | some v => if v = 0 then b else some v
  | none => b

/-- Expression `jobAttrs["job-impressions-completed"] || jobAttrs["job-media-sheets-completed"] || undefined`
from the route handler (the trailing `|| undefined` collapses a falsy
result to `undefined`). -/
def reportedCurrentPage (jobAttrs : IppJobAttributes) : Option Int :=
  jsOrNum (jsOrNum jobAttrs.jobImpressionsCompleted
      jobAttrs.jobMediaSheetsCompleted) none

/-- Expression `jobAttrs["job-impressions"] || jobAttrs["job-media-sheets"] || undefined`
from the route handler. -/
def reportedTotalPages (jobAttrs : IppJobAttributes) : Option Int :=
  jsOrNum (jsOrNum jobAttrs.jobImpressions jobAttrs.jobMediaSheets) none

/-! ## eSCL scan driver (`printer-api.ts`)

The driver's device interactions are HTTP calls; we embed one run against
the outcomes the device produces for each call. -/

/-- Fields of an HTTP `Response` inspected by `cancelScanJob`. -/
structure HttpResponse where
  ok : Bool
  status : Nat
deriving DecidableEq, Repr

/-- Function `cancelScanJob` from `printer-api.ts`: DELETE the job URL; a
non-ok response with a status other than 404 throws, every other response
(including 404, already gone) succeeds. -/
def cancelScanJob (response : HttpResponse) : Except String Unit :=
  if !response.ok && response.status ≠ 404 then
    .error ("Failed to cancel scan job: " ++ toString response.status)
  else
    .ok ()

/-- Outcomes of the device interactions observed by one run of
`performScan`: the result of `createScanJob` (ok carries the job URL from
the Location header), of `waitForScanComplete`, of `fetchScannedDocument`
(the blob is modelled as a `String`), and the HTTP response the device
would give to the cleanup DELETE. -/
structure ScanRun where
  createResult : Except String String
  waitResult : Except String Unit
  fetchResult : Except String String
  cancelResponse : HttpResponse
deriving Repr

/-- Function `performScan` from `printer-api.ts`: create → wait → fetch,
with wait and fetch inside a try block whose catch runs
`await cancelScanJob(jobUrl).catch(() => {})` — the `.catch` swallows the
cleanup outcome — and rethrows the original error.  Returns the propagated
result paired with the list of job URLs passed to `cancelScanJob`, in call
order. -/
def performScan (run : ScanRun) : Except String String × List String :=
  match run.createResult with
  | .error e => (.error e, [])
  | .ok jobUrl =>
      let tryBody : Except String String :=
        match run.waitResult with
        | .error e => .error e
        | .ok _ => run.fetchResult
      match tryBody with
      | .error e =>
          let _ignored := cancelScanJob run.cancelResponse
          (.error e, [jobUrl])
      | .ok blob => (.ok blob, [])

/-! ### `waitForScanComplete`

The loop polls the device-wide scanner state every 500 ms.
`states k` is the `status.state` string the (k+1)-th call of
`fetchScannerStatus` reports (that function casts the XML text without
validating, so the state is an arbitrary string; the loop compares it to
`"Idle"` and `"Stopped"` and keeps polling on anything else).

Time model: polls are instantaneous and each loop iteration ends with a
500 ms sleep, so iteration k starts at elapsed wall-clock 500·k ms; the
guard `Date.now() - startTime < maxWaitMs` therefore admits iteration k
iff 500·k < maxWaitMs, i.e. iff k < ⌈maxWaitMs/500⌉. -/

/-- Maximal number of loop iterations: ⌈maxWaitMs/500⌉ (the least k with
500·k ≥ maxWaitMs). -/
def scanPollLimit (maxWaitMs : Nat) : Nat := (maxWaitMs + 499) / 500

/-- The polling loop of `waitForScanComplete`, as a function of the state
sequence: argument `fuel` is the number of iterations the wall-clock guard
still admits and `k` the index of the current poll.  Returns the propagated
outcome paired with the states reported to the progress callback (each
iteration reports its observed state before checking it). -/
def waitPollLoop (states : Nat → String) :
    Nat → Nat → Except String Unit × List String
  | 0, _ => (.error "Scan timed out", [])
  | fuel + 1, k =>
      if states k = "Idle" then
        (.ok (), [states k])
      else if states k = "Stopped" then
        (.error "Scanner stopped unexpectedly", [states k])
      else
        ((waitPollLoop states fuel (k + 1)).1,
          states k :: (waitPollLoop states fuel (k + 1)).2)

/-- Function `waitForScanComplete` from `printer-api.ts` (the job URL is
unused by the loop, which polls device-wide state): run the polling loop
from poll 0 with the iterations the wall-clock bound admits. -/
def waitForScanComplete (states : Nat → String) (maxWaitMs : Nat) :
    Except String Unit × List String :=
  waitPollLoop states (scanPollLimit maxWaitMs) 0

/-- Example scanner-state sequence: one processing poll, then idle. -/
def scanStatesEx : Nat → String := fun k => if k = 0 then "Processing" else "Idle"

/-! ## Telemetry parsers (`printer-api.ts`, `job-api.ts`)

The XML accessors return the first matching element's text content or null;
each parser below is a function of that extracted `Option String`. -/

/-- JavaScript `v || d` for a nullable string: both null and the empty
string are falsy. -/
def jsOrStr (v : Option String) (d : String) : String :=
  match v with
  | some s => if s = "" then d else s
  | none => d

/-- Paper-tray state parse from `fetchPaperTray`:
`getTextContent(xml, "MediaState") || "ready"`, then membership-checked
against the three known states with fallback "ready". -/
def parseMediaState (v : Option String) : String :=
  let mediaState := jsOrStr v "ready"
  if mediaState ∈ ["ready", "missing", "jam"] then mediaState else "ready"

/-- Alert-severity parse from `fetchPrinterStatus`:
`(getChildText(alert, "Severity") || "Info") as "Info" | "Warning" | "Error"`
— a TypeScript cast with no runtime membership check, so a non-empty
unrecognized value passes through unchanged. -/
def parseSeverity (v : Option String) : String := jsOrStr v "Info"

/-- Job-list job-state parse from `fetchJobList` in `job-api.ts`:
`getChildText(job, "JobState") || "Pending"`, then membership-checked
against the five known states with fallback "Pending". -/
def parseJobState (v : Option String) : String :=
  let stateText := jsOrStr v "Pending"
  if stateText ∈ ["Pending", "Processing", "Completed", "Canceled", "Aborted"]
  then stateText else "Pending"

/-! ## Printer status aggregator (`printer-status-context.tsx`) -/

/-- An alert as parsed by `fetchPrinterStatus`; the severity carries
whatever string `parseSeverity` produced. -/
structure Alert where
  id : String
  severity : String
  color : Option String
deriving DecidableEq, Repr

/-- A job from the EWS job list, as parsed by `fetchJobList` in
`job-api.ts`. -/
structure PrinterJob where
  id : String
  url : String
  category : String
  state : String
  stateUpdate : String
  source : String
deriving DecidableEq, Repr

/-- Scanner status as parsed by `fetchScannerStatus`. -/
structure ScannerStatus where
  state : String
  adfState : String
deriving DecidableEq, Repr

/-- The seven-valued derived display status. -/
inductive DisplayStatus where
  | ready | printing | scanning | copying | warning | error | offline
deriving DecidableEq, Repr

/-- Function `computeStatus` from `printer-status-context.tsx`: sequential
early returns.  A processing job whose category is none of Copy/Scan/Print
(i.e. Fax) matches no early return and falls through to the scanner
check, exactly as in the source. -/
def computeStatus (alerts : List Alert) (currentJob : Option PrinterJob)
    (scannerStatus : Option ScannerStatus) (isOffline : Bool) : DisplayStatus :=
  if alerts.any (fun a => a.severity == "Error") then .error
  else if isOffline then .offline
  else
    let fromJob : Option DisplayStatus :=
      match currentJob with
      | some job =>
          if job.state == "Processing" then
            if job.category == "Copy" then some .copying
            else if job.category == "Scan" then some .scanning
            else if job.category == "Print" then some .printing
            else none
          else none
      | none => none
    match fromJob with
    | some s => s
    | none =>
        if (match scannerStatus with
            | some sc => sc.state == "Processing"
            | none => false) then .scanning
        else if alerts.any (fun a => a.severity == "Warning") then .warning
        else .ready

/-- Display status computed from the spec's words (§4.6): one flat chain in
strict priority order — error alert, offline, processing job typed by its
category, scanner processing, warning alert, ready. -/
def specDisplayStatus (alerts : List Alert) (currentJob : Option PrinterJob)
    (scannerStatus : Option ScannerStatus) (isOffline : Bool) : DisplayStatus :=
  if alerts.any (fun a => a.severity == "Error") then .error
  else if isOffline then .offline
  else if currentJob.any (fun j => j.state == "Processing" && j.category == "Copy")
    then .copying
  else if currentJob.any (fun j => j.state == "Processing" && j.category == "Scan")
    then .scanning
  else if currentJob.any (fun j => j.state == "Processing" && j.category == "Print")
    then .printing
  else if scannerStatus.any (fun sc => sc.state == "Processing") then .scanning
  else if alerts.any (fun a => a.severity == "Warning") then .warning
  else .ready

/-- The error predicate of the aggregator's poll handler:
`statusResult.alerts.some((a) => a.severity === "Error")`. -/
def hasErrorAlert (alerts : List Alert) : Bool :=
  alerts.any (fun a => a.severity == "Error")

/-- Drawer auto-expand events of `fetchStatusData`, threaded over the
successful polls (a failed poll leaves both `hadErrorRef` and the drawer
untouched, so it contributes no entry): the entry for a poll is `true` iff
that poll invoked `setDrawerExpanded(true)`, i.e. iff
`hasError && !hadErrorRef.current`; the ref is then updated to the current
predicate value. -/
def expandEventsFrom (hadError : Bool) : List (List Alert) → List Bool
  | [] => []
  | alerts :: rest =>
      (hasErrorAlert alerts && !hadError)
        :: expandEventsFrom (hasErrorAlert alerts) rest

/-- Auto-expand events of a whole poll sequence; `hadErrorRef` starts
false. -/
def drawerExpandEvents (polls : List (List Alert)) : List Bool :=
  expandEventsFrom false polls

/-! ## Ink levels (`fetchInkLevels` in `printer-api.ts`) -/

/-- Projection of one `ConsumableInfo` XML element: the child texts the
loop of `fetchInkLevels` reads (none when the child element is missing).
The numeric percentage is carried already parsed. -/
structure ConsumableInfo where
  labelCode : Option String
  typeEnum : Option String
  stateText : Option String
  percent : Int
  selectibilityNumber : Option String
  brand : Option String
  installDate : Option String
deriving DecidableEq, Repr

/-- Record `InkLevel` from `printer-api.ts`. -/
structure InkLevel where
  color : String
  colorName : String
  percentRemaining : Int
  state : String
  cartridgeModel : String
  isGenuineHP : Bool
  installDate : Option String
deriving DecidableEq, Repr

/-- The `colorMap` record of `fetchInkLevels`: label code → (color, name). -/
def colorMapLookup (labelCode : String) : Option (String × String) :=
  if labelCode = "K" then some ("K", "Black")
  else if labelCode = "C" then some ("C", "Cyan")
  else if labelCode = "M" then some ("M", "Magenta")
  else if labelCode = "Y" then some ("Y", "Yellow")
  else none

/-- Loop body of `fetchInkLevels`: skip a consumable unless its type is
exactly "ink" and its label code is truthy and in the color map (the empty
string is falsy and is not in the map either way); otherwise build the
`InkLevel` record. -/
def inkOf (c : ConsumableInfo) : Option InkLevel :=
  if c.typeEnum ≠ some "ink" then none
  else
    match c.labelCode with
    | none => none
    | some l =>
        match colorMapLookup l with
        | none => none
        | some (color, name) =>
            let stateText := jsOrStr c.stateText "ok"
            some { color := color
                   colorName := name
                   percentRemaining := c.percent
                   state :=
                     if stateText ∈ ["ok", "low", "used", "empty", "missing"]
                     then stateText else "ok"
                   cartridgeModel := jsOrStr c.selectibilityNumber "Unknown"
                   isGenuineHP := c.brand == some "HP"
                   installDate := c.installDate }

/-- The fixed station order `["K", "C", "M", "Y"]` of the final sort. -/
def stationOrder : List String := ["K", "C", "M", "Y"]

/-- Value `order.indexOf(color)` of the sort comparator (every post-filter
color is a member of the order, so the JS −1 case cannot arise). -/
def stationIndex (color : String) : Nat := stationOrder.indexOf color

/-- Order induced by the sort comparator
`(a, b) => order.indexOf(a.color) - order.indexOf(b.color)`:
ascending station index. -/
def inkLe (a b : InkLevel) : Prop := stationIndex a.color ≤ stationIndex b.color

instance : DecidableRel inkLe := fun a b =>
  inferInstanceAs (Decidable (stationIndex a.color ≤ stationIndex b.color))

/-- Strict version of `inkLe`, used to identify sorted lists with distinct
stations. -/
def inkLt (a b : InkLevel) : Prop := stationIndex a.color < stationIndex b.color

instance : DecidableRel inkLt := fun a b =>
  inferInstanceAs (Decidable (stationIndex a.color < stationIndex b.color))

instance : IsTotal InkLevel inkLe := ⟨fun _ _ => Nat.le_total _ _⟩

instance : IsTrans InkLevel inkLe := ⟨fun _ _ _ => Nat.le_trans⟩

instance : IsAntisymm InkLevel inkLt :=
  ⟨fun _ _ h1 h2 => absurd h1 (Nat.lt_asymm h2)⟩

/-- Function `fetchInkLevels` from `printer-api.ts`, as a function of the
consumable elements of the document: build ink levels in document order,
then sort by station order.  JS `Array.prototype.sort` is stable, and for
this comparator insertion sort computes the same stable result. -/
def fetchInkLevels (consumables : List ConsumableInfo) : List InkLevel :=
  List.insertionSort inkLe (consumables.filterMap inkOf)

/-- Concrete black consumable at 10 percent. -/
def consumableK10 : ConsumableInfo :=
  ⟨some "K", some "ink", some "low", 10, some "63XL", some "HP", none⟩

/-- Concrete black consumable at 90 percent. -/
def consumableK90 : ConsumableInfo :=
  ⟨some "K", some "ink", some "ok", 90, some "63", some "HP", none⟩

/-- Concrete yellow consumable at 50 percent. -/
def consumableY50 : ConsumableInfo :=
  ⟨some "Y", some "ink", some "ok", 50, some "63", some "HP", none⟩

/-! ## Copy workflow orchestrator (`use-copy.ts`) -/

/-- Type `CopyState` from the copy feature: the five status variants. -/
inductive CopyState where
  | idle : CopyState
  | scanning (progress : String) : CopyState
  | printing (currentCopy : Nat) (totalCopies : Nat) : CopyState
  | complete (copies : Nat) : CopyState
  | error (message : String) (phase : String) : CopyState
deriving DecidableEq, Repr

/-- One invocation of `startCopy` from `use-copy.ts` during which `cancel()`
is never called: `cancelledRef` is reset to false on entry, so every
cancellation checkpoint reads false (the claim's "cancellation not set"
condition).

`closureStatus` is the value of `state.status` captured by the `useCallback`
closure (dependency array `[state.status]`) at the render that created the
invoked callback.  React state is a per-render constant: the `setState`
calls issued during the invocation schedule re-renders but do not change
the captured binding, so the catch block's `state.status === "scanning"`
test reads the pre-invocation status, not the "scanning" status set at the
start of this very run.

`scanResult` is the outcome of `performScan` and `printResult` the outcome
of `submitPrintJob`; the function returns the last state passed to
`setState` during the invocation. -/
def startCopyRun (closureStatus : String) (copies : Nat)
    (scanResult : Except String Unit) (printResult : Except String Unit) :
    CopyState :=
  match scanResult with
  | .error message =>
      .error message (if closureStatus = "scanning" then "scan" else "print")
  | .ok _ =>
      match printResult with
      | .error message =>
          .error message (if closureStatus = "scanning" then "scan" else "print")
      | .ok _ => .complete copies

end HpPrinterApp

namespace HpPrinterApp

/-- C1: the print-flow reducer implements exactly the §4.4 transition table —
on every (state, action) pair it returns the table's result when the pair is
listed and the input state unchanged otherwise — and the §8.2 happy-path
trace holds: empty →SELECT_FILE→ ready →START_SEND(42)→ sending(jobId=42)
→START_PRINTING(3)→ printing(0,1,3) →PRINT_PROGRESS(2,66)→ printing(page 2)
→COMPLETE→ complete(3) →RESET→ empty. -/
theorem printReducer_implements_spec_table :
    (∀ (s : PrintState) (a : PrintAction),
        printReducer s a = (specTransitionTable s a).getD s)
    ∧ printReducer initialState (.SELECT_FILE "doc.pdf") = .ready "doc.pdf"
    ∧ printReducer (.ready "doc.pdf") (.START_SEND 42) = .sending "doc.pdf" 42
    ∧ printReducer (.sending "doc.pdf" 42) (.START_PRINTING 3)
        = .printing "doc.pdf" 42 0 1 3
    ∧ printReducer (.printing "doc.pdf" 42 0 1 3) (.PRINT_PROGRESS 2 66)
        = .printing "doc.pdf" 42 66 2 3
    ∧ printReducer (.printing "doc.pdf" 42 66 2 3) .COMPLETE
        = .complete "doc.pdf" 3
    ∧ printReducer (.complete "doc.pdf" 3) .RESET = .empty := by
  refine ⟨?_, rfl, rfl, rfl, rfl, rfl, rfl⟩
  intro s a
  cases a <;> cases s <;> rfl

/-- C4: `mapJobState` maps 3 and 4 to pending, 5 and 6 to processing,
7 to canceled, 8 to aborted, 9 to completed, and every other integer to
pending; and an absent `job-state` attribute is reported as pending. -/
theorem mapJobState_implements_spec :
    (∀ n : Int, mapJobState n =
      if n = 3 ∨ n = 4 then .pending
      else if n = 5 ∨ n = 6 then .processing
      else if n = 7 then .canceled
      else if n = 8 then .aborted
      else if n = 9 then .completed
      else .pending)
    ∧ (∀ jobAttrs : IppJobAttributes,
        jobAttrs.jobState = none → reportedJobState jobAttrs = .pending) := by
  constructor
  · intro n
    unfold mapJobState
    split <;> simp_all
  · intro jobAttrs h
    simp [reportedJobState, h, mapJobState]

/-- C4 witness: evaluating the characterization at 6, at the unknown code 42,
and at a record with an absent `job-state`. -/
theorem mapJobState_implements_spec_witness :
    mapJobState 6 = .processing ∧ mapJobState 42 = .pending
    ∧ reportedJobState ⟨none, [], none, none, none, none, none⟩ = .pending := by
  refine ⟨?_, ?_, ?_⟩
  · have h := mapJobState_implements_spec.1 6
    simpa using h
  · have h := mapJobState_implements_spec.1 42
    simpa using h
  · exact mapJobState_implements_spec.2 ⟨none, [], none, none, none, none, none⟩ rfl

/-- C10: the endpoint's page-count fallback is by truthiness, not presence —
a present-but-zero `job-impressions-completed` falls back to
`job-media-sheets-completed` exactly as an absent one does, a result in
which both are 0 or absent is `undefined`, the same holds for total pages
from `job-impressions` / `job-media-sheets`, and the reported
currentPage/totalPages are never the value 0. -/
theorem reportedPages_truthiness_fallback :
    (∀ jobAttrs : IppJobAttributes,
        reportedCurrentPage { jobAttrs with jobImpressionsCompleted := some 0 }
          = reportedCurrentPage { jobAttrs with jobImpressionsCompleted := none })
    ∧ (∀ jobAttrs : IppJobAttributes,
        (jobAttrs.jobImpressionsCompleted = some 0
            ∨ jobAttrs.jobImpressionsCompleted = none)
        → (jobAttrs.jobMediaSheetsCompleted = some 0
            ∨ jobAttrs.jobMediaSheetsCompleted = none)
        → reportedCurrentPage jobAttrs = none)
    ∧ (∀ jobAttrs : IppJobAttributes,
        reportedTotalPages { jobAttrs with jobImpressions := some 0 }
          = reportedTotalPages { jobAttrs with jobImpressions := none })
    ∧ (∀ jobAttrs : IppJobAttributes,
        reportedCurrentPage jobAttrs ≠ some 0
        ∧ reportedTotalPages jobAttrs ≠ some 0) := by
  refine ⟨?_, ?_, ?_, ?_⟩
  · intro jobAttrs
    simp [reportedCurrentPage, jsOrNum]
  · intro jobAttrs h1 h2
    rcases h1 with h1 | h1 <;> rcases h2 with h2 | h2 <;>
      simp [reportedCurrentPage, jsOrNum, h1, h2]
  · intro jobAttrs
    simp [reportedTotalPages, jsOrNum]
  · intro jobAttrs
    constructor
    · unfold reportedCurrentPage jsOrNum
      rcases jobAttrs.jobImpressionsCompleted with _ | v <;>
        rcases jobAttrs.jobMediaSheetsCompleted with _ | w <;>
        simp <;> split <;> simp_all
    · unfold reportedTotalPages jsOrNum
      rcases jobAttrs.jobImpressions with _ | a <;>
        rcases jobAttrs.jobMediaSheets with _ | b <;>
        simp <;> split <;> simp_all

/-- C10 witness: a device explicitly reporting zero completed impressions and
zero completed sheets yields an undefined currentPage. -/
theorem reportedPages_truthiness_fallback_witness :
    reportedCurrentPage ⟨some 5, [], none, some 0, some 0, some 0, none⟩ = none := by
  exact reportedPages_truthiness_fallback.2.1
    ⟨some 5, [], none, some 0, some 0, some 0, none⟩ (Or.inl rfl) (Or.inl rfl)

/-- C2: in every run of `performScan` in which `createScanJob` succeeds and a
later step throws, `cancelScanJob` is invoked exactly once, with the job URL
`createScanJob` returned, the propagated error is the original failure, and
the cleanup outcome is swallowed (the result does not depend on the cleanup
response); when no step fails the fetched document is returned and
`cancelScanJob` is never invoked. -/
theorem performScan_cleanup_on_failure (run : ScanRun) :
    (∀ jobUrl e, run.createResult = .ok jobUrl → run.waitResult = .error e →
        performScan run = (.error e, [jobUrl]))
    ∧ (∀ jobUrl e, run.createResult = .ok jobUrl → run.waitResult = .ok () →
        run.fetchResult = .error e →
        performScan run = (.error e, [jobUrl]))
    ∧ (∀ jobUrl blob, run.createResult = .ok jobUrl → run.waitResult = .ok () →
        run.fetchResult = .ok blob →
        performScan run = (.ok blob, []))
    ∧ (∀ response,
        performScan { run with cancelResponse := response } = performScan run) := by
  refine ⟨?_, ?_, ?_, ?_⟩
  · intro jobUrl e hc hw
    simp [performScan, hc, hw]
  · intro jobUrl e hc hw hf
    simp [performScan, hc, hw, hf]
  · intro jobUrl blob hc hw hf
    simp [performScan, hc, hw, hf]
  · intro response
    unfold performScan
    rcases run.createResult with e | jobUrl
    · rfl
    · rcases run.waitResult with e | u
      · rfl
      · rcases run.fetchResult with e | blob <;> rfl

/-- C2 witness: a run whose document fetch fails after job creation succeeded
propagates the fetch error and cancels the created job exactly once, even
though the cleanup DELETE itself fails with a 500. -/
theorem performScan_cleanup_on_failure_witness :
    performScan ⟨.ok "/eSCL/ScanJobs/1", .ok (),
        .error "Failed to fetch scanned document: 500", ⟨false, 500⟩⟩
      = (.error "Failed to fetch scanned document: 500", ["/eSCL/ScanJobs/1"]) := by
  exact (performScan_cleanup_on_failure
      ⟨.ok "/eSCL/ScanJobs/1", .ok (),
        .error "Failed to fetch scanned document: 500", ⟨false, 500⟩⟩).2.1
    "/eSCL/ScanJobs/1" "Failed to fetch scanned document: 500" rfl rfl rfl

/-! Helper lemmas for the `waitForScanComplete` polling loop. -/

lemma waitPollLoop_length (states : Nat → String) :
    ∀ fuel k, (waitPollLoop states fuel k).2.length ≤ fuel := by
  intro fuel
  induction fuel with
  | zero => intro k; simp [waitPollLoop]
  | succ f ih =>
      intro k
      by_cases hIdle : states k = "Idle"
      · simp [waitPollLoop, hIdle]
      · by_cases hStop : states k = "Stopped"
        · simp [waitPollLoop, hIdle, hStop]
        · have := ih (k + 1)
          simp only [waitPollLoop, hIdle, hStop, if_false, List.length_cons]
          omega

lemma waitPollLoop_hit (states : Nat → String) :
    ∀ (j fuel k : Nat), j < fuel →
      (∀ i, i < j → states (k + i) ≠ "Idle" ∧ states (k + i) ≠ "Stopped") →
      (states (k + j) = "Idle" →
        waitPollLoop states fuel k
          = (.ok (), (List.range (j + 1)).map (fun i => states (k + i))))
      ∧ (states (k + j) = "Stopped" →
        waitPollLoop states fuel k
          = (.error "Scanner stopped unexpectedly",
              (List.range (j + 1)).map (fun i => states (k + i)))) := by
  intro j
  induction j with
  | zero =>
      intro fuel k hj _hpre
      obtain ⟨f, rfl⟩ : ∃ f, fuel = f + 1 := ⟨fuel - 1, by omega⟩
      constructor
      · intro hIdle
        simp only [Nat.add_zero] at hIdle
        simp [waitPollLoop, hIdle, List.range_succ]
      · intro hStop
        simp only [Nat.add_zero] at hStop
        have hNotIdle : states k ≠ "Idle" := by simp [hStop]
        simp [waitPollLoop, hNotIdle, hStop, List.range_succ]
  | succ j ih =>
      intro fuel k hj hpre
      obtain ⟨f, rfl⟩ : ∃ f, fuel = f + 1 := ⟨fuel - 1, by omega⟩
      have h0 := hpre 0 (by omega)
      simp only [Nat.add_zero] at h0
      have hrec := ih f (k + 1) (by omega) (fun i hi => by
        have h := hpre (i + 1) (by omega)
        have harith : k + (i + 1) = k + 1 + i := by omega
        rwa [harith] at h)
      have harithj : k + (j + 1) = k + 1 + j := by omega
      have hmap :
          (List.range (j + 1 + 1)).map (fun i => states (k + i))
            = states k
              :: (List.range (j + 1)).map (fun i => states (k + 1 + i)) := by
        rw [List.range_succ_eq_map]
        simp only [List.map_cons, List.map_map, Nat.add_zero]
        congr 1
        apply List.map_congr_left
        intro i _
        simp only [Function.comp_apply]
        congr 1
        omega
      constructor
      · intro hIdle
        rw [harithj] at hIdle
        have hcall := hrec.1 hIdle
        simp only [waitPollLoop, h0.1, h0.2, if_false, hcall, hmap]
      · intro hStop
        rw [harithj] at hStop
        have hcall := hrec.2 hStop
        simp only [waitPollLoop, h0.1, h0.2, if_false, hcall, hmap]

lemma waitPollLoop_timeout (states : Nat → String) :
    ∀ (fuel k : Nat),
      (∀ i, i < fuel → states (k + i) ≠ "Idle" ∧ states (k + i) ≠ "Stopped") →
      waitPollLoop states fuel k
        = (.error "Scan timed out",
            (List.range fuel).map (fun i => states (k + i))) := by
  intro fuel
  induction fuel with
  | zero => intro k _; simp [waitPollLoop]
  | succ f ih =>
      intro k h
      have h0 := h 0 (by omega)
      simp only [Nat.add_zero] at h0
      have hrec := ih (k + 1) (fun i hi => by
        have hh := h (i + 1) (by omega)
        have harith : k + (i + 1) = k + 1 + i := by omega
        rwa [harith] at hh)
      have hmap :
          (List.range (f + 1)).map (fun i => states (k + i))
            = states k :: (List.range f).map (fun i => states (k + 1 + i)) := by
        rw [List.range_succ_eq_map]
        simp only [List.map_cons, List.map_map, Nat.add_zero]
        congr 1
        apply List.map_congr_left
        intro i _
        simp only [Function.comp_apply]
        congr 1
        omega
      simp only [waitPollLoop, h0.1, h0.2, if_false, hrec, hmap]

/-- C6: for every sequence of observed device-wide scanner states,
`waitForScanComplete` performs at most ⌈maxWaitMs/500⌉ polls and terminates
with exactly one of three outcomes — success at the first observed Idle
state, a "Scanner stopped unexpectedly" rejection at the first observed
Stopped state, and a "Scan timed out" rejection once maxWaitMs of
wall-clock time has elapsed with neither observed — reporting every
observed state (the terminating one included) to the progress callback. -/
theorem waitForScanComplete_trichotomy (states : Nat → String) (maxWaitMs : Nat) :
    ((waitForScanComplete states maxWaitMs).2.length ≤ scanPollLimit maxWaitMs)
    ∧ (∀ k, k < scanPollLimit maxWaitMs → states k = "Idle" →
        (∀ i, i < k → states i ≠ "Idle" ∧ states i ≠ "Stopped") →
        waitForScanComplete states maxWaitMs
          = (.ok (), (List.range (k + 1)).map states))
    ∧ (∀ k, k < scanPollLimit maxWaitMs → states k = "Stopped" →
        (∀ i, i < k → states i ≠ "Idle" ∧ states i ≠ "Stopped") →
        waitForScanComplete states maxWaitMs
          = (.error "Scanner stopped unexpectedly",
              (List.range (k + 1)).map states))
    ∧ ((∀ i, i < scanPollLimit maxWaitMs →
          states i ≠ "Idle" ∧ states i ≠ "Stopped") →
        waitForScanComplete states maxWaitMs
          = (.error "Scan timed out",
              (List.range (scanPollLimit maxWaitMs)).map states)) := by
  refine ⟨waitPollLoop_length states _ 0, ?_, ?_, ?_⟩
  · intro k hk hIdle hpre
    have h := (waitPollLoop_hit states k (scanPollLimit maxWaitMs) 0 hk
        (fun i hi => by simpa using hpre i hi)).1 (by simpa using hIdle)
    simpa [waitForScanComplete] using h
  · intro k hk hStop hpre
    have h := (waitPollLoop_hit states k (scanPollLimit maxWaitMs) 0 hk
        (fun i hi => by simpa using hpre i hi)).2 (by simpa using hStop)
    simpa [waitForScanComplete] using h
  · intro hall
    have h := waitPollLoop_timeout states (scanPollLimit maxWaitMs) 0
      (fun i hi => by simpa using hall i hi)
    simpa [waitForScanComplete] using h

/-- C6 witness: with the default 60000 ms budget and a device that reports
Processing once and then Idle, the wait succeeds after two polls and both
observed states were reported. -/
theorem waitForScanComplete_trichotomy_witness :
    waitForScanComplete scanStatesEx 60000 = (.ok (), ["Processing", "Idle"]) := by
  have h := (waitForScanComplete_trichotomy scanStatesEx 60000).2.1 1
    (by norm_num [scanPollLimit]) (by rfl)
    (fun i hi => by
      have : i = 0 := by omega
      subst this
      exact ⟨by decide, by decide⟩)
  simpa [scanStatesEx, List.range_succ] using h

/-- C3: `computeStatus` returns, for every combination of inputs, the unique
value given by the spec's strict priority order — error alert, offline,
processing job typed by its category, scanner processing, warning alert,
ready — and in particular an Error alert together with a processing print
job and the offline flag yields `error`. -/
theorem computeStatus_strict_priority :
    (∀ (alerts : List Alert) (currentJob : Option PrinterJob)
        (scannerStatus : Option ScannerStatus) (isOffline : Bool),
        computeStatus alerts currentJob scannerStatus isOffline
          = specDisplayStatus alerts currentJob scannerStatus isOffline)
    ∧ computeStatus [⟨"inkSystemFailure", "Error", none⟩]
        (some ⟨"3", "/Jobs/JobList/3", "Print", "Processing", "", ""⟩)
        (some ⟨"Idle", "ScannerAdfEmpty"⟩) true = .error := by
  refine ⟨?_, by decide⟩
  intro alerts currentJob scannerStatus isOffline
  unfold computeStatus specDisplayStatus
  rcases currentJob with _ | job
  · rcases scannerStatus with _ | scst <;> simp
  · rcases scannerStatus with _ | scst <;>
      (cases hp : (job.state == "Processing") <;>
        cases hc : (job.category == "Copy") <;>
        cases hs : (job.category == "Scan") <;>
        cases hpr : (job.category == "Print") <;>
        simp [hp, hc, hs, hpr])

/-- C9: the drawer auto-expand is edge-triggered — over every sequence of
successful polls there is one event entry per poll, and the entry is `true`
exactly when the error predicate holds at that poll and did not hold at the
previous one (with no previous poll counting as not holding), so a
persisting error never re-fires the expansion. -/
theorem drawerExpand_edge_triggered :
    ∀ (polls : List (List Alert)) (i : Nat),
      (drawerExpandEvents polls).length = polls.length
      ∧ (drawerExpandEvents polls).getD i false
          = (hasErrorAlert (polls.getD i [])
              && !(if i = 0 then false
                   else hasErrorAlert (polls.getD (i - 1) []))) := by
  have hlen : ∀ (had : Bool) (polls : List (List Alert)),
      (expandEventsFrom had polls).length = polls.length := by
    intro had polls
    induction polls generalizing had with
    | nil => rfl
    | cons a rest ih => simp [expandEventsFrom, ih]
  have hget : ∀ (polls : List (List Alert)) (had : Bool) (i : Nat),
      (expandEventsFrom had polls).getD i false
        = (hasErrorAlert (polls.getD i [])
            && !(if i = 0 then had
                 else hasErrorAlert (polls.getD (i - 1) []))) := by
    intro polls
    induction polls with
    | nil =>
        intro had i
        simp [expandEventsFrom, hasErrorAlert]
    | cons a rest ih =>
        intro had i
        match i with
        | 0 => simp [expandEventsFrom]
        | 1 =>
            have h0 := ih (hasErrorAlert a) 0
            simpa [expandEventsFrom, List.getD_cons_succ] using h0
        | j + 2 =>
            have hj := ih (hasErrorAlert a) (j + 1)
            simpa [expandEventsFrom, List.getD_cons_succ] using hj
  intro polls i
  exact ⟨hlen false polls, hget polls false i⟩

/-- C7 counterexample: the alert-severity parse does not substitute the
documented default on an unrecognized value — the non-empty unknown
severity "Critical" is passed through unchanged rather than parsing to
"Info". -/
theorem parseSeverity_no_unknown_defaulting :
    parseSeverity (some "Critical") = "Critical"
    ∧ parseSeverity (some "Critical") ≠ "Info" := by
  exact ⟨rfl, by decide⟩

/-- C7 (amended): an unrecognized MediaState parses to "ready" and an
unrecognized job-list JobState parses to "Pending" (and absent values
default likewise), but an alert Severity is defaulted to "Info" only when
the Severity element is absent or its text is empty — a non-empty
unrecognized severity value is passed through unchanged by the cast. -/
theorem telemetry_unknown_value_defaulting :
    (∀ v : String, v ∉ ["ready", "missing", "jam"]
        → parseMediaState (some v) = "ready")
    ∧ parseMediaState none = "ready"
    ∧ (∀ v : String,
        v ∉ ["Pending", "Processing", "Completed", "Canceled", "Aborted"]
        → parseJobState (some v) = "Pending")
    ∧ parseJobState none = "Pending"
    ∧ parseSeverity none = "Info"
    ∧ parseSeverity (some "") = "Info"
    ∧ (∀ v : String, v ≠ "" → parseSeverity (some v) = v) := by
  refine ⟨?_, rfl, ?_, rfl, rfl, rfl, ?_⟩
  · intro v hv
    by_cases h : v = ""
    · subst h
      rfl
    · simp [parseMediaState, jsOrStr, h, hv]
  · intro v hv
    by_cases h : v = ""
    · subst h
      rfl
    · simp [parseJobState, jsOrStr, h, hv]
  · intro v hv
    simp [parseSeverity, jsOrStr, hv]

/-- C7 witness: concrete unknown values for each parser. -/
theorem telemetry_unknown_value_defaulting_witness :
    parseMediaState (some "overheated") = "ready"
    ∧ parseJobState (some "Paused") = "Pending"
    ∧ parseSeverity (some "Warning") = "Warning" :=
  ⟨telemetry_unknown_value_defaulting.1 "overheated" (by decide),
   telemetry_unknown_value_defaulting.2.2.1 "Paused" (by decide),
   telemetry_unknown_value_defaulting.2.2.2.2.2.2 "Warning" (by decide)⟩

/-! Helper lemmas for the ink-level ordering. -/

lemma colorMapLookup_mem (l : String) (pr : String × String)
    (h : colorMapLookup l = some pr) : pr.1 ∈ stationOrder := by
  unfold colorMapLookup at h
  split_ifs at h <;> cases h <;> simp [stationOrder]

lemma inkOf_color_mem {c : ConsumableInfo} {x : InkLevel}
    (h : inkOf c = some x) : x.color ∈ stationOrder := by
  unfold inkOf at h
  split at h
  · exact absurd h (by simp)
  · rcases hl : c.labelCode with _ | l <;> rw [hl] at h
    · exact absurd h (by simp)
    · rcases hm : colorMapLookup l with _ | pr <;> simp only [hm] at h
      · exact absurd h (by simp)
      · rcases pr with ⟨color, name⟩
        simp only [Option.some.injEq] at h
        have hmem := colorMapLookup_mem l (color, name) hm
        rw [← h]
        simpa using hmem

lemma fetchInkLevels_mem_station {cs : List ConsumableInfo} {x : InkLevel}
    (hx : x ∈ fetchInkLevels cs) : x.color ∈ stationOrder := by
  have hx' : x ∈ cs.filterMap inkOf :=
    (List.perm_insertionSort inkLe (cs.filterMap inkOf)).subset hx
  rcases List.mem_filterMap.mp hx' with ⟨c, _, hc⟩
  exact inkOf_color_mem hc

lemma fetchInkLevels_sorted_strict {cs : List ConsumableInfo}
    (hnodup : (fetchInkLevels cs).Pairwise (fun a b => a.color ≠ b.color)) :
    (fetchInkLevels cs).Sorted inkLt := by
  have hs : (fetchInkLevels cs).Sorted inkLe :=
    List.sorted_insertionSort inkLe (cs.filterMap inkOf)
  refine List.Pairwise.imp_of_mem ?_ (List.Pairwise.and hs hnodup)
  intro a b ha hb hab
  have hia := fetchInkLevels_mem_station ha
  have hib := fetchInkLevels_mem_station hb
  have hne : stationIndex a.color ≠ stationIndex b.color := by
    intro he
    exact hab.2 ((List.indexOf_inj hia hib).mp he)
  exact Nat.lt_of_le_of_ne hab.1 hne

/-- C8 counterexample: with two distinct black consumables, the stable sort
keeps equal-station entries in input order, so permuting the input changes
the output list — the claim's permutation invariance fails as stated. -/
theorem fetchInkLevels_perm_counterexample :
    [consumableK90, consumableK10].Perm [consumableK10, consumableK90]
    ∧ fetchInkLevels [consumableK90, consumableK10]
        ≠ fetchInkLevels [consumableK10, consumableK90] := by
  constructor
  · decide
  · decide

/-- C8 (amended): the parsed ink list is always sorted in the fixed station
order K, C, M, Y; and whenever the ink consumables carry pairwise-distinct
stations — at most one consumable per color, the shape the data model
prescribes — permuting the input consumables does not change the output
list. -/
theorem fetchInkLevels_sorted_and_perm_invariant :
    (∀ consumables : List ConsumableInfo,
        (fetchInkLevels consumables).Sorted inkLe)
    ∧ (∀ cs cs' : List ConsumableInfo, cs.Perm cs' →
        (cs.filterMap inkOf).Pairwise (fun a b => a.color ≠ b.color) →
        fetchInkLevels cs = fetchInkLevels cs') := by
  constructor
  · intro consumables
    exact List.sorted_insertionSort inkLe _
  · intro cs cs' hperm hnodup
    have hpermInk : (cs.filterMap inkOf).Perm (cs'.filterMap inkOf) :=
      hperm.filterMap inkOf
    have hperm1 : (fetchInkLevels cs).Perm (cs.filterMap inkOf) :=
      List.perm_insertionSort inkLe _
    have hperm2 : (fetchInkLevels cs').Perm (cs'.filterMap inkOf) :=
      List.perm_insertionSort inkLe _
    have houtperm : (fetchInkLevels cs).Perm (fetchInkLevels cs') :=
      hperm1.trans (hpermInk.trans hperm2.symm)
    have hsymm : ∀ {x y : InkLevel}, x.color ≠ y.color → y.color ≠ x.color :=
      fun h => Ne.symm h
    have hnodup1 :
        (fetchInkLevels cs).Pairwise (fun a b => a.color ≠ b.color) :=
      (List.Perm.pairwise_iff hsymm hperm1).mpr hnodup
    have hnodup2 :
        (fetchInkLevels cs').Pairwise (fun a b => a.color ≠ b.color) :=
      (List.Perm.pairwise_iff hsymm hperm2).mpr
        ((List.Perm.pairwise_iff hsymm hpermInk).mp hnodup)
    exact List.eq_of_perm_of_sorted houtperm
      (fetchInkLevels_sorted_strict hnodup1)
      (fetchInkLevels_sorted_strict hnodup2)

/-- C8 witness: a yellow and a black consumable arriving in either order
produce the same K-before-Y output, and that output is sorted in station
order. -/
theorem fetchInkLevels_sorted_and_perm_invariant_witness :
    fetchInkLevels [consumableY50, consumableK90]
      = fetchInkLevels [consumableK90, consumableY50]
    ∧ (fetchInkLevels [consumableY50, consumableK90]).Sorted inkLe :=
  ⟨fetchInkLevels_sorted_and_perm_invariant.2
      [consumableY50, consumableK90] [consumableK90, consumableY50]
      (by decide) (by decide),
   fetchInkLevels_sorted_and_perm_invariant.1 [consumableY50, consumableK90]⟩

/-- C5 (code bug): in an invocation of `startCopy` begun from a render whose
status is "idle" — the normal entry point — a scan-phase failure is
attributed to phase "print": the catch block's `state.status === "scanning"`
test reads the stale captured render value "idle", never the "scanning"
value set at the start of the run, so the attribution the claim requires
(phase "scan") is not produced.  A print-phase failure after a successful
scan is attributed "print" for the same stale reason. -/
theorem startCopy_phase_misattribution :
    startCopyRun "idle" 1 (.error "Scanner stopped unexpectedly") (.ok ())
      = .error "Scanner stopped unexpectedly" "print"
    ∧ startCopyRun "idle" 1 (.error "Scanner stopped unexpectedly") (.ok ())
      ≠ .error "Scanner stopped unexpectedly" "scan"
    ∧ startCopyRun "idle" 2 (.ok ()) (.error "Printer is busy")
      = .error "Printer is busy" "print" := by
  exact ⟨rfl, by decide, rfl⟩

end HpPrinterApp
